import Mathlib

/-! # Devkit: a verification development

A shallow embedding of the service layer of the Devkit backend
(`internal/services` and the parts of `internal/handlers` that post-process
service results), with theorems about the mock store, the configuration
converter, the bounded retry loop of the generative-AI client and the
regex-response splitter.

Conventions of the embedding.

* Go `string` values are Lean `String`s; byte slices that are immediately
  converted with `string(...)` are `String`s as well.
* A Go `map[string]string` is an association list with at most the first
  binding of a key visible; `m[k] = v` removes the older bindings of `k`.
* Effects (the random source, the HTTP client, the clock) are inputs of the
  functions: the random draw is an argument, the HTTP client is a function
  from the prompt and the attempt index to what `Do` returns, `time.Sleep` is
  recorded in a trace.
* `time.Duration` is a natural number of nanoseconds.  The largest value the
  code computes is `8 * Second`, far below `2^63`, so no wrap-around occurs.
-/

namespace Devkit

/-! ## `internal/services/mock_service.go` -/

/-- The `mocks map[string]string` field: an association list, newest first. -/
abbrev GoMap := List (String × String)

/-- The comma-ok map read `v, ok := m[k]`: the zero value `""` when absent. -/
def GoMap.get (m : GoMap) (k : String) : String × Bool :=
  match m.lookup k with
  | some v => (v, true)
  | none => ("", false)

/-- The map write `m[k] = v`: the binding of `k` is replaced. -/
def GoMap.set (m : GoMap) (k v : String) : GoMap :=
  (k, v) :: m.filter (fun p => p.1 != k)

/-- The store; the mutex carries no data and is not represented. -/
structure MockStore where
  mocks : GoMap
deriving Repr, DecidableEq

/-- The constructor `NewMockStore`. -/
def NewMockStore : MockStore := { mocks := [] }

/-- The table `hextable` of `encoding/hex`. -/
def hextable : List Char := "0123456789abcdef".data

/-- The function `hex.EncodeToString`: two lower-case digits per byte, high nibble first. -/
def hexEncodeToString (b : List (Fin 256)) : String :=
  String.mk (b.flatMap (fun v => [hextable.getD (v.val / 16) '0', hextable.getD (v.val % 16) '0']))

/-- What `rand.Read(b)` does to the six-byte buffer: `.error err` is a failure
of the random source, `.ok f` fills byte `i` with `f i`. -/
abbrev RandRead := Except String (Fin 6 → Fin 256)

/-- The method `MockStore.CreateMock`: the new store and the returned `(id, err)`.  An
error of the random source is returned as it is and leaves the map untouched. -/
def MockStore.CreateMock (ms : MockStore) (rnd : RandRead) (jsonBody : String) :
    MockStore × Except String String :=
  match rnd with
  | .error err => (ms, .error err)
  | .ok f =>
    let b := List.ofFn f
    let id := hexEncodeToString b
    ({ mocks := ms.mocks.set id jsonBody }, .ok id)

/-- The method `MockStore.GetMock`: the store after the call and the returned
`(mock, found)` of the comma-ok read. -/
def MockStore.GetMock (ms : MockStore) (id : String) : MockStore × (String × Bool) :=
  (ms, ms.mocks.get id)

/-- One call on the store by a client: `CreateMock` with the bytes its random
read draws and the body, or `GetMock` with an id. -/
inductive MockOp where
  | create (rnd : RandRead) (jsonBody : String)
  | get (id : String)

/-- The store after a sequence of calls, oldest first. -/
def MockStore.run (ms : MockStore) : List MockOp → MockStore
  | [] => ms
  | .create rnd jsonBody :: ops => (ms.CreateMock rnd jsonBody).1.run ops
  | .get id :: ops => (ms.GetMock id).1.run ops

/-! ## `internal/services/converter_service.go` -/

/-- The decoders and encoders of `encoding/json`, `gopkg.in/yaml.v3` and
`github.com/BurntSushi/toml` that `ConvertConfig` calls, over the type `V` of
`map[string]interface{}` values.  Each returns the error text or the result. -/
structure Codecs (V : Type) where
  jsonUnmarshal : String → Except String V
  yamlUnmarshal : String → Except String V
  tomlUnmarshal : String → Except String V
  jsonMarshalIndent : V → Except String String
  yamlMarshal : V → Except String String
  tomlEncode : V → Except String String

/-- Step 1 of `ConvertConfig`: the `switch from`. -/
def unmarshalSource {V : Type} (c : Codecs V) (input src : String) : Except String V :=
  if src = "json" then
    match c.jsonUnmarshal input with
    | .error err => .error ("invalid source JSON: " ++ err)
    | .ok v => .ok v
  else if src = "yaml" then
    match c.yamlUnmarshal input with
    | .error err => .error ("invalid source YAML: " ++ err)
    | .ok v => .ok v
  else if src = "toml" then
    match c.tomlUnmarshal input with
    | .error err => .error ("invalid source TOML: " ++ err)
    | .ok v => .ok v
  else .error ("unsupported source format: " ++ src)

deriving instance DecidableEq for Except

/-- The check `if err != nil` after the second switch. -/
def checkEncoded (r : Except String String) : Except String String :=
  match r with
  | .error err => .error ("error converting to target format: " ++ err)
  | .ok output => .ok output

/-- Step 2 of `ConvertConfig`: the `switch to` and the check of `err`. -/
def marshalTarget {V : Type} (c : Codecs V) (intermediate : V) (dst : String) :
    Except String String :=
  if dst = "json" then checkEncoded (c.jsonMarshalIndent intermediate)
  else if dst = "yaml" then checkEncoded (c.yamlMarshal intermediate)
  else if dst = "toml" then checkEncoded (c.tomlEncode intermediate)
  else .error ("unsupported target format: " ++ dst)

/-- The function `ConvertConfig(input, from, to)`: the source is decoded first, the target
tag is looked at only afterwards. -/
def ConvertConfig {V : Type} (c : Codecs V) (input src dst : String) : Except String String :=
  match unmarshalSource c input src with
  | .error e => .error e
  | .ok intermediate => marshalTarget c intermediate dst

/-- The format tags the two switches know. -/
def supportedFormat (f : String) : Prop := f = "json" ∨ f = "yaml" ∨ f = "toml"

instance (f : String) : Decidable (supportedFormat f) := by
  unfold supportedFormat; exact inferInstance

/-- A decoder set over `V = String` used to run `ConvertConfig` on concrete
texts: the JSON decoder accepts the empty object `{}` and rejects the
truncated text `{` with the message `encoding/json` gives for it; the other
decoders and the encoders accept everything. -/
def sampleCodecs : Codecs String where
  jsonUnmarshal := fun s =>
    if s = "\x7b\x7d" then .ok s
    else if s = "\x7b" then .error "unexpected end of JSON input"
    else .error "invalid character"
  yamlUnmarshal := fun s => .ok s
  tomlUnmarshal := fun s => .ok s
  jsonMarshalIndent := fun v => .ok v
  yamlMarshal := fun v => .ok v
  tomlEncode := fun v => .ok v

/-! ## `internal/services/gemini_service.go` -/

/-- The constant `time.Second`, in nanoseconds. -/
def Second : Nat := 1000000000

/-- The constant `http.StatusServiceUnavailable`. -/
def StatusServiceUnavailable : Nat := 503

/-- The constant `http.StatusOK`. -/
def StatusOK : Nat := 200

structure GeminiPart where
  Text : String
deriving Repr, DecidableEq

structure GeminiContent where
  Parts : List GeminiPart
deriving Repr, DecidableEq

structure GeminiCandidate where
  Content : GeminiContent
  FinishReason : String
deriving Repr, DecidableEq

structure GeminiResponse where
  Candidates : List GeminiCandidate
deriving Repr, DecidableEq

/-- An `*http.Response` as far as `generateContent` reads it: the status code
and the body stream.  `body` is what `io.ReadAll(resp.Body)` delivers while the
body is open, `readErr` the error that read ends with (if any), `closed`
whether `resp.Body.Close()` has been called. -/
structure Response where
  StatusCode : Nat
  body : String
  readErr : Option String
  closed : Bool
deriving Repr, DecidableEq

/-- The call `resp.Body.Close()`. -/
def Response.Close (r : Response) : Response := { r with closed := true }

/-- The call `io.ReadAll(resp.Body)`: the bytes and the error.  A body that has been
closed yields no bytes and the error of `net/http` for a read after close. -/
def ReadAll (r : Response) : String × Option String :=
  if r.closed then ("", some "http: read on closed response body")
  else (r.body, r.readErr)

/-- What `s.HTTPClient.Do(req)` returns.  With `err == nil` the response is
non-nil; with `err != nil` the response is nil, except for a failed redirect
check, where `net/http` returns the last response together with the error. -/
inductive DoResult where
  | ok (resp : Response)
  | fail (err : String) (resp : Option Response)
deriving Repr, DecidableEq

/-- The value assigned to the variable `resp`. -/
def DoResult.resp : DoResult → Option Response
  | .ok r => some r
  | .fail _ r => r

/-- The loop condition `err != nil || resp.StatusCode == http.StatusServiceUnavailable`. -/
def DoResult.retry : DoResult → Bool
  | .ok r => r.StatusCode == StatusServiceUnavailable
  | .fail _ _ => true

/-- The variable `resp` after the retry branch: `if err == nil { resp.Body.Close() }`. -/
def DoResult.respAfterRetry : DoResult → Option Response
  | .ok r => some r.Close
  | .fail _ r => r

/-- The surroundings of one call of `generateContent`: whether `json.Marshal`
of the request and `http.NewRequest` fail (the URL is the same in every
iteration), what the provider does with the prompt on the `i`-th outbound call
(`i` counted from 0), and `json.Unmarshal` into a `GeminiResponse`. -/
structure Env where
  marshalErr : Option String
  newRequestErr : Option String
  Do : String → Nat → DoResult
  Unmarshal : String → Except String GeminiResponse

/-- The errors `generateContent` constructs, one per `fmt.Errorf`. -/
inductive GenError where
  | creatingRequestBody (err : String)
  | creatingHTTPRequest (err : String)
  | noResponse
  | apiError (status : Nat) (respBody : String)
  | readingBody (err : String)
  | parsing (err : String)
  | noContent
deriving Repr, DecidableEq

/-- The local `maxRetries := 3`. -/
def maxRetries : Nat := 3

/-- The format strings of the `fmt.Errorf` calls, filled in. -/
def GenError.message : GenError → String
  | .creatingRequestBody err => "error creating request body: " ++ err
  | .creatingHTTPRequest err => "error creating http request: " ++ err
  | .noResponse => "API did not respond after " ++ toString maxRetries ++ " retries"
  | .apiError status respBody =>
      "API error (status " ++ toString status ++ "): " ++ respBody
  | .readingBody err => "error reading successful response body: " ++ err
  | .parsing err => "error parsing successful Gemini response: " ++ err
  | .noContent => "no content found in Gemini response"

/-- The observable effects of the loop, in order: `call k` is the `k`-th
outbound `HTTPClient.Do` (numbered from 1, as in the log line), `sleep d` is
`time.Sleep(d)`. -/
inductive Event where
  | call (k : Nat)
  | sleep (d : Nat)
deriving Repr, DecidableEq

/-- The loop `for i := 0; i < maxRetries; i++` of `generateContent`.  The first
argument is `maxRetries - i`, the number of iterations that remain; `resp` and
`backoffDuration` are the loop-carried variables and `tr` the effects so far.
The result is the early `return` of a failed `http.NewRequest`, or the value
of `resp` when the loop is left. -/
def retryLoop (env : Env) (prompt : String) :
    Nat → Nat → Nat → Option Response → List Event →
      Except GenError (Option Response) × List Event
  | 0, _, _, resp, tr => (.ok resp, tr)
  | n + 1, i, backoffDuration, _, tr =>
    match env.newRequestErr with
    | some err => (.error (.creatingHTTPRequest err), tr)
    | none =>
      let r := env.Do prompt i
      let tr := tr ++ [Event.call (i + 1)]
      if r.retry then
        retryLoop env prompt n (i + 1) (backoffDuration * 2) r.respAfterRetry
          (tr ++ [Event.sleep backoffDuration])
      else (.ok r.resp, tr)

/-- The last statements of `generateContent`: the first part of the first
candidate, or the "no content" error. -/
def firstText (geminiResp : GeminiResponse) : Except GenError String :=
  match geminiResp.Candidates with
  | [] => .error .noContent
  | c :: _ =>
    match c.Content.Parts with
    | [] => .error .noContent
    | p :: _ => .ok p.Text

/-- What `generateContent` does with `resp` after the loop. -/
def afterLoop (env : Env) (resp : Option Response) : Except GenError String :=
  match resp with
  | none => .error .noResponse
  | some resp =>
    if resp.StatusCode ≠ StatusOK then
      .error (.apiError resp.StatusCode (ReadAll resp).1)
    else
      match ReadAll resp with
      | (_, some err) => .error (.readingBody err)
      | (respBody, none) =>
        match env.Unmarshal respBody with
        | .error err => .error (.parsing err)
        | .ok geminiResp => firstText geminiResp

/-- The method `GeminiService.generateContent`: the returned `(string, error)` and the
outbound calls and sleeps it performed. -/
def generateContent (env : Env) (prompt : String) : Except GenError String × List Event :=
  match env.marshalErr with
  | some err => (.error (.creatingRequestBody err), [])
  | none =>
    match retryLoop env prompt maxRetries 0 (1 * Second) none [] with
    | (.error e, tr) => (.error e, tr)
    | (.ok resp, tr) => (afterLoop env resp, tr)

/-- The number of outbound calls in a trace. -/
def callCount (tr : List Event) : Nat :=
  (tr.filter (fun e => match e with | .call _ => true | .sleep _ => false)).length

/-- The durations slept in a trace, in order. -/
def sleeps : List Event → List Nat
  | [] => []
  | .call _ :: tr => sleeps tr
  | .sleep d :: tr => d :: sleeps tr

/-- The total time slept in a trace. -/
def totalSleep (tr : List Event) : Nat := (sleeps tr).sum

/-- The method `GeminiService.GenerateRegex`: the prompt template with the description. -/
def GenerateRegex (env : Env) (description : String) : Except GenError String × List Event :=
  generateContent env
    ("You are a regular expression expert. Based on the following description, generate a valid PCRE-compatible regex pattern. "
      ++ "Then, on a new line, provide a brief, step-by-step explanation of how the regex works. "
      ++ "Use '|||' as a separator between the regex and the explanation. "
      ++ "Respond with ONLY the regex, the separator, and the explanation. Example: `^[a-zA-Z0-9]+$|||Asserts position at the start of the string. Matches one or more alphanumeric characters. Asserts position at the end.` "
      ++ "Description: \"" ++ description ++ "\"")

/-! ## `internal/handlers/api_handlers.go` -/

/-- What a handler writes after the header: `json.NewEncoder(w).Encode(data)`
of a `map[string]string` (the key/value pairs, whose order carries no
meaning), or `w.Write` of raw bytes. -/
inductive Payload where
  | json (data : List (String × String))
  | raw (bytes : String)
deriving Repr, DecidableEq

/-- The response a handler produces: status code, `Content-Type`, payload. -/
structure HTTPResult where
  status : Nat
  contentType : String
  payload : Payload
deriving Repr, DecidableEq

/-- The helper `writeJSON`. -/
def writeJSON (status : Nat) (data : List (String × String)) : HTTPResult :=
  { status := status, contentType := "application/json", payload := .json data }

/-- The helper `writeError`. -/
def writeError (status : Nat) (message : String) : HTTPResult :=
  writeJSON status [("error", message)]

/-- The handler `APIHandlers.HandleGetMock`, given the path variable `id`. -/
def HandleGetMock (mockStore : MockStore) (id : String) : HTTPResult :=
  let (mockData, found) := (mockStore.GetMock id).2
  if !found then writeError 404 "Mock not found"
  else { status := 200, contentType := "application/json", payload := .raw mockData }

/-- The function `strings.Index` on the characters of valid UTF-8 text: the position of the
first instance of `sep` in `s`. -/
def Index : List Char → List Char → Option Nat
  | [], sep => if sep = [] then some 0 else none
  | c :: cs, sep =>
    if sep.isPrefixOf (c :: cs) then some 0 else (Index cs sep).map (· + 1)

/-- The loop of `strings.genSplit` with `sepSave = 0`: at most `k` cuts. -/
def splitLoop (sep : List Char) : Nat → List Char → List (List Char)
  | 0, s => [s]
  | k + 1, s =>
    match Index s sep with
    | none => [s]
    | some m => s.take m :: splitLoop sep k (s.drop (m + sep.length))

/-- The function `strings.explode`: the first `n - 1` characters on their own, then the rest. -/
def explode (s : List Char) (n : Nat) : List (List Char) :=
  match min n s.length with
  | 0 => []
  | k + 1 => (s.take k).map (fun c => [c]) ++ [s.drop k]

/-- The function `strings.SplitN(s, sep, n)` for `n ≥ 0`. -/
def SplitN (s sep : String) (n : Nat) : List String :=
  if n = 0 then []
  else if sep = "" then (explode s.data n).map String.mk
  else
    let n := min n (s.utf8ByteSize + 1)
    (splitLoop sep.data (n - 1) s.data).map String.mk

/-- The predicate `unicode.IsSpace`. -/
def IsSpace (r : Char) : Bool :=
  let n := r.toNat
  (0x09 ≤ n && n ≤ 0x0d) || n == 0x20 || n == 0x85 || n == 0xa0 || n == 0x1680 ||
    (0x2000 ≤ n && n ≤ 0x200a) || n == 0x2028 || n == 0x2029 || n == 0x202f ||
    n == 0x205f || n == 0x3000

/-- The function `strings.TrimSpace`: leading and trailing white space removed. -/
def TrimSpace (s : String) : String :=
  String.mk ((s.data.dropWhile IsSpace).reverse.dropWhile IsSpace).reverse

/-- The handler `APIHandlers.HandleGenerateRegex`.  The argument `decoded` is the outcome of decoding the
request body into `req.Description`; `GenerateRegex` is the service call. -/
def HandleGenerateRegex (GenerateRegex : String → Except GenError String)
    (decoded : Except String String) : HTTPResult :=
  match decoded with
  | .error _ => writeError 400 "Invalid request body"
  | .ok description =>
    if description = "" then writeError 400 "Invalid request body"
    else
      match GenerateRegex description with
      | .error err => writeError 500 err.message
      | .ok result =>
        match SplitN result "|||" 2 with
        | [p0, p1] =>
          writeJSON 200 [("regex", TrimSpace p0), ("explanation", TrimSpace p1)]
        | _ =>
          writeJSON 200
            [("regex", result), ("explanation", "AI did not provide an explanation.")]

/-- The call `op` is a `CreateMock` whose random read succeeds and encodes to `id`. -/
def MockOp.issues (id : String) : MockOp → Prop
  | .create (.ok f) _ => hexEncodeToString (List.ofFn f) = id
  | .create (.error _) _ => False
  | .get _ => False

/-- The text of a provider answer with one candidate of one part. -/
def sampleBody : String :=
  "\x7b\"candidates\":[\x7b\"content\":\x7b\"parts\":[\x7b\"text\":\"^[0-9]+$|||digits only\"\x7d]\x7d\x7d]\x7d"

/-- The decoded form of `sampleBody`. -/
def sampleResponse : GeminiResponse :=
  { Candidates :=
      [{ Content := { Parts := [{ Text := "^[0-9]+$|||digits only" }] }, FinishReason := "" }] }

/-- A decoder used to run `generateContent` on concrete answers: it decodes
`sampleBody` and the answer without candidates and rejects every other text. -/
def sampleUnmarshal (s : String) : Except String GeminiResponse :=
  if s = sampleBody then .ok sampleResponse
  else if s = "\x7b\x7d" then .ok { Candidates := [] }
  else .error "invalid character"

/-- A provider that follows a script: the `i`-th call gets the `i`-th entry,
and calls beyond the script fail at the transport level. -/
def scriptedEnv (script : List DoResult) : Env where
  marshalErr := none
  newRequestErr := none
  Do := fun _ i => script.getD i (.fail "connection refused" none)
  Unmarshal := sampleUnmarshal

/-- An HTTP 503 answer as `Do` delivers it. -/
def unavailable : DoResult :=
  .ok { StatusCode := 503, body := "overloaded", readErr := none, closed := false }

/-- An HTTP 200 answer carrying `sampleBody`. -/
def answered : DoResult :=
  .ok { StatusCode := 200, body := sampleBody, readErr := none, closed := false }

/-! ## Evaluation on concrete inputs -/

example : hexEncodeToString [0, 1, 255, 16, 171, 9] = "0001ff10ab09" := by decide
example : SplitN "a|||b|||c" "|||" 2 = ["a", "b|||c"] := by decide
example : SplitN "" "|||" 2 = [""] := by decide
example : SplitN "abc" "" 2 = ["a", "bc"] := by decide
example : TrimSpace " \t a b \n" = "a b" := by decide
example : (GenError.apiError 404 "nope").message = "API error (status 404): nope" := by decide
example : GenError.noResponse.message = "API did not respond after 3 retries" := by decide

/-! ## The mock store -/

theorem GoMap.get_set_same (m : GoMap) (k v : String) : (m.set k v).get k = (v, true) := by
  simp [GoMap.get, GoMap.set, List.lookup]

theorem GoMap.lookup_filter_ne (m : GoMap) (k k' : String) (h : k' ≠ k) :
    (m.filter (fun p => p.1 != k)).lookup k' = m.lookup k' := by
  induction m with
  | nil => rfl
  | cons p m ih =>
    obtain ⟨a, b⟩ := p
    by_cases hak : a = k
    · subst hak
      have hne : (k' == a) = false := by simpa using h
      simp [List.filter, List.lookup, hne, ih]
    · have hf : (a != k) = true := by simpa using hak
      simp only [List.filter, hf, List.lookup]
      cases hk : (k' == a) <;> simp [ih]

theorem GoMap.get_set_other (m : GoMap) (k k' v : String) (h : k' ≠ k) :
    (m.set k v).get k' = m.get k' := by
  have hne : (k' == k) = false := by simpa using h
  simp [GoMap.get, GoMap.set, List.lookup, hne, GoMap.lookup_filter_ne m k k' h]

theorem GoMap.lookup_eq_none_of_not_key (m : GoMap) (k : String)
    (h : ∀ v, (k, v) ∉ m) : m.lookup k = none := by
  induction m with
  | nil => rfl
  | cons p m ih =>
    obtain ⟨a, b⟩ := p
    have hak : (k == a) = false := by
      have : k ≠ a := fun e => h b (by simp [e])
      simpa using this
    simp only [List.lookup, hak]
    exact ih (fun v hv => h v (List.mem_cons_of_mem _ hv))

/-- C3. Create-then-get round trip: whenever `CreateMock` on any store with any
body `b` succeeds with `id`, `GetMock id` on the resulting store returns
`(b, true)`, and the get handler answers 200 with exactly the text `b`. -/
theorem CreateMock_GetMock_roundtrip (ms ms' : MockStore) (rnd : RandRead) (b id : String)
    (h : ms.CreateMock rnd b = (ms', .ok id)) :
    (ms'.GetMock id).2 = (b, true) ∧
      HandleGetMock ms' id =
        { status := 200, contentType := "application/json", payload := .raw b } := by
  have hget : (ms'.GetMock id).2 = (b, true) := by
    cases rnd with
    | error err => simp [MockStore.CreateMock] at h
    | ok f =>
      simp only [MockStore.CreateMock, Prod.mk.injEq, Except.ok.injEq] at h
      obtain ⟨h1, h2⟩ := h
      subst h1
      subst h2
      simp [MockStore.GetMock, GoMap.get_set_same]
  refine ⟨hget, ?_⟩
  simp [HandleGetMock, hget]

theorem CreateMock_GetMock_roundtrip_witness :
    ((NewMockStore.CreateMock (.ok (fun _ => 10)) "\x7b\"a\":1\x7d").1.GetMock "0a0a0a0a0a0a").2
        = ("\x7b\"a\":1\x7d", true) ∧
      HandleGetMock (NewMockStore.CreateMock (.ok (fun _ => 10)) "\x7b\"a\":1\x7d").1 "0a0a0a0a0a0a" =
        { status := 200, contentType := "application/json", payload := .raw "\x7b\"a\":1\x7d" } :=
  CreateMock_GetMock_roundtrip NewMockStore _ (.ok (fun _ => 10)) "\x7b\"a\":1\x7d" "0a0a0a0a0a0a"
    rfl

/-- A store entry survives every later sequence of calls in which no
`CreateMock` draws the bytes of its id again. -/
theorem GetMock_run_of_not_issued (ms : MockStore) (id : String) (ops : List MockOp)
    (h : ∀ op ∈ ops, ¬ op.issues id) :
    ((ms.run ops).GetMock id).2 = (ms.GetMock id).2 := by
  induction ops generalizing ms with
  | nil => rfl
  | cons op ops ih =>
    have hop := h op (List.mem_cons_self _ _)
    have hrest : ∀ o ∈ ops, ¬ o.issues id := fun o ho => h o (List.mem_cons_of_mem _ ho)
    cases op with
    | get k => simpa [MockStore.run, MockStore.GetMock] using ih ms hrest
    | create rnd body =>
      cases rnd with
      | error err => simpa [MockStore.run, MockStore.CreateMock] using ih ms hrest
      | ok f =>
        have hne : id ≠ hexEncodeToString (List.ofFn f) := fun e => hop e.symm
        simp only [MockStore.run, MockStore.CreateMock]
        rw [ih _ hrest]
        exact GoMap.get_set_other _ _ _ _ hne

/-- C2. A stored mock is not immutable when a later `CreateMock` draws the same
six random bytes: on the empty store, `CreateMock` with bytes `00 00 00 00 00 00`
and body `{"a":1}` returns id `000000000000`; after a second `CreateMock` with
the same bytes and body `{"b":2}`, `GetMock "000000000000"` returns
`({"b":2}, true)` and not `({"a":1}, true)`. -/
theorem CreateMock_collision_overwrites :
    (NewMockStore.CreateMock (.ok (fun _ => 0)) "\x7b\"a\":1\x7d").2 = .ok "000000000000" ∧
      (((NewMockStore.CreateMock (.ok (fun _ => 0)) "\x7b\"a\":1\x7d").1.run
          [.create (.ok (fun _ => 0)) "\x7b\"b\":2\x7d"]).GetMock "000000000000").2
        = ("\x7b\"b\":2\x7d", true) ∧
      (((NewMockStore.CreateMock (.ok (fun _ => 0)) "\x7b\"a\":1\x7d").1.run
          [.create (.ok (fun _ => 0)) "\x7b\"b\":2\x7d"]).GetMock "000000000000").2
        ≠ ("\x7b\"a\":1\x7d", true) := by
  refine ⟨rfl, by decide, by decide⟩

/-- C10. `GetMock` is a pure lookup: it returns the store it was given, and for
an id that is not a key of the store it returns `("", false)` whatever the
store holds, in which case the get handler answers 404 with the error envelope
whose `error` field is `Mock not found`. -/
theorem GetMock_pure_lookup (ms : MockStore) (id : String) :
    (ms.GetMock id).1 = ms ∧
      ((∀ v, (id, v) ∉ ms.mocks) →
        (ms.GetMock id).2 = ("", false) ∧
          HandleGetMock ms id =
            { status := 404, contentType := "application/json",
              payload := .json [("error", "Mock not found")] }) := by
  refine ⟨rfl, fun h => ?_⟩
  have hget : (ms.GetMock id).2 = ("", false) := by
    simp [MockStore.GetMock, GoMap.get, GoMap.lookup_eq_none_of_not_key ms.mocks id h]
  refine ⟨hget, ?_⟩
  simp [HandleGetMock, hget, writeError, writeJSON]

theorem GetMock_pure_lookup_witness :
    (({ mocks := [("0a0a0a0a0a0a", "\x7b\x7d")] } : MockStore).GetMock "ffffffffffff").1
        = { mocks := [("0a0a0a0a0a0a", "\x7b\x7d")] } ∧
      ((∀ v, ("ffffffffffff", v) ∉ ({ mocks := [("0a0a0a0a0a0a", "\x7b\x7d")] } : MockStore).mocks) →
        (({ mocks := [("0a0a0a0a0a0a", "\x7b\x7d")] } : MockStore).GetMock "ffffffffffff").2
            = ("", false) ∧
          HandleGetMock { mocks := [("0a0a0a0a0a0a", "\x7b\x7d")] } "ffffffffffff" =
            { status := 404, contentType := "application/json",
              payload := .json [("error", "Mock not found")] }) :=
  GetMock_pure_lookup { mocks := [("0a0a0a0a0a0a", "\x7b\x7d")] } "ffffffffffff"

/-! ## The configuration converter -/

theorem unmarshalSource_unsupported {V : Type} (c : Codecs V) (input src : String)
    (h : ¬ supportedFormat src) :
    unmarshalSource c input src = .error ("unsupported source format: " ++ src) := by
  unfold supportedFormat at h
  simp only [not_or] at h
  simp [unmarshalSource, h.1, h.2.1, h.2.2]

theorem marshalTarget_unsupported {V : Type} (c : Codecs V) (v : V) (dst : String)
    (h : ¬ supportedFormat dst) :
    marshalTarget c v dst = .error ("unsupported target format: " ++ dst) := by
  unfold supportedFormat at h
  simp only [not_or] at h
  simp [marshalTarget, h.1, h.2.1, h.2.2]

/-- C4, as stated, fails: with the supported source tag `json`, the unsupported
target tag `xml` and the input `{`, which the JSON decoder rejects,
`ConvertConfig` returns the source-parse error and neither of the two
unsupported-format errors. -/
theorem ConvertConfig_unsupported_target_unparsable_source :
    ¬ supportedFormat "xml" ∧
      ConvertConfig sampleCodecs "\x7b" "json" "xml"
        = .error "invalid source JSON: unexpected end of JSON input" ∧
      ConvertConfig sampleCodecs "\x7b" "json" "xml"
        ≠ .error ("unsupported source format: " ++ "json") ∧
      ConvertConfig sampleCodecs "\x7b" "json" "xml"
        ≠ .error ("unsupported target format: " ++ "xml") := by
  refine ⟨by decide, rfl, ?_, ?_⟩
  · intro h
    have h2 := Except.error.inj h
    revert h2
    decide
  · intro h
    have h2 := Except.error.inj h
    revert h2
    decide

/-- C4, amended. For every decoder set, every input and every pair of tags of
which one is unsupported, `ConvertConfig` returns an error and never a result.
With an unsupported source tag the error is `unsupported source format: <from>`,
whatever the input is.  With a supported source tag and an unsupported target
tag the source is decoded first: if the decoder accepts the input the error is
`unsupported target format: <to>`, and if the decoder rejects it with `err` the
error is `invalid source JSON: err` (`YAML`, `TOML` for the other two tags). -/
theorem ConvertConfig_unsupported {V : Type} (c : Codecs V) (input src dst : String)
    (h : ¬ supportedFormat src ∨ ¬ supportedFormat dst) :
    (∃ e, ConvertConfig c input src dst = .error e) ∧
      (¬ supportedFormat src →
        ConvertConfig c input src dst = .error ("unsupported source format: " ++ src)) ∧
      (supportedFormat src → ∀ v, unmarshalSource c input src = .ok v →
        ConvertConfig c input src dst = .error ("unsupported target format: " ++ dst)) ∧
      (∀ err, src = "json" → c.jsonUnmarshal input = .error err →
        ConvertConfig c input src dst = .error ("invalid source JSON: " ++ err)) ∧
      (∀ err, src = "yaml" → c.yamlUnmarshal input = .error err →
        ConvertConfig c input src dst = .error ("invalid source YAML: " ++ err)) ∧
      (∀ err, src = "toml" → c.tomlUnmarshal input = .error err →
        ConvertConfig c input src dst = .error ("invalid source TOML: " ++ err)) := by
  have hsrc : ¬ supportedFormat src →
      ConvertConfig c input src dst = .error ("unsupported source format: " ++ src) := by
    intro hs
    simp [ConvertConfig, unmarshalSource_unsupported c input src hs]
  have hdst : supportedFormat src → ∀ v, unmarshalSource c input src = .ok v →
      ConvertConfig c input src dst = .error ("unsupported target format: " ++ dst) := by
    intro hs v hv
    have hd : ¬ supportedFormat dst := h.resolve_left (not_not.mpr hs)
    simp [ConvertConfig, hv, marshalTarget_unsupported c v dst hd]
  refine ⟨?_, hsrc, hdst, ?_, ?_, ?_⟩
  · by_cases hs : supportedFormat src
    · cases hu : unmarshalSource c input src with
      | error e => exact ⟨e, by simp [ConvertConfig, hu]⟩
      | ok v => exact ⟨_, hdst hs v hu⟩
    · exact ⟨_, hsrc hs⟩
  · intro err hj he
    subst hj
    simp [ConvertConfig, unmarshalSource, he]
  · intro err hj he
    subst hj
    simp [ConvertConfig, unmarshalSource, he]
  · intro err hj he
    subst hj
    simp [ConvertConfig, unmarshalSource, he]

theorem ConvertConfig_unsupported_witness :
    (∃ e, ConvertConfig sampleCodecs "\x7b\x7d" "json" "xml" = .error e) ∧
      (¬ supportedFormat "json" →
        ConvertConfig sampleCodecs "\x7b\x7d" "json" "xml"
          = .error ("unsupported source format: " ++ "json")) ∧
      (supportedFormat "json" → ∀ v, unmarshalSource sampleCodecs "\x7b\x7d" "json" = .ok v →
        ConvertConfig sampleCodecs "\x7b\x7d" "json" "xml"
          = .error ("unsupported target format: " ++ "xml")) ∧
      (∀ err, "json" = "json" → sampleCodecs.jsonUnmarshal "\x7b\x7d" = .error err →
        ConvertConfig sampleCodecs "\x7b\x7d" "json" "xml"
          = .error ("invalid source JSON: " ++ err)) ∧
      (∀ err, "json" = "yaml" → sampleCodecs.yamlUnmarshal "\x7b\x7d" = .error err →
        ConvertConfig sampleCodecs "\x7b\x7d" "json" "xml"
          = .error ("invalid source YAML: " ++ err)) ∧
      (∀ err, "json" = "toml" → sampleCodecs.tomlUnmarshal "\x7b\x7d" = .error err →
        ConvertConfig sampleCodecs "\x7b\x7d" "json" "xml"
          = .error ("invalid source TOML: " ++ err)) :=
  ConvertConfig_unsupported sampleCodecs "\x7b\x7d" "json" "xml" (Or.inr (by decide))

/-! ## The retry loop of the generative-AI client -/

/-- The loop unrolled for `maxRetries = 3`, when the request can be built. -/
theorem generateContent_unrolled (env : Env) (prompt : String)
    (hm : env.marshalErr = none) (hn : env.newRequestErr = none) :
    generateContent env prompt =
      if (env.Do prompt 0).retry then
        if (env.Do prompt 1).retry then
          if (env.Do prompt 2).retry then
            (afterLoop env (env.Do prompt 2).respAfterRetry,
              [.call 1, .sleep (1 * Second), .call 2, .sleep (1 * Second * 2), .call 3,
                .sleep (1 * Second * 2 * 2)])
          else
            (afterLoop env (env.Do prompt 2).resp,
              [.call 1, .sleep (1 * Second), .call 2, .sleep (1 * Second * 2), .call 3])
        else
          (afterLoop env (env.Do prompt 1).resp, [.call 1, .sleep (1 * Second), .call 2])
      else (afterLoop env (env.Do prompt 0).resp, [.call 1]) := by
  simp only [generateContent, hm, maxRetries, retryLoop, hn]
  by_cases h0 : (env.Do prompt 0).retry = true
  · by_cases h1 : (env.Do prompt 1).retry = true
    · by_cases h2 : (env.Do prompt 2).retry = true
      · simp [h0, h1, h2]
      · simp [h0, h1, h2]
    · simp [h0, h1]
  · simp [h0]

/-- Without a request nothing is sent and nothing is slept. -/
theorem generateContent_no_request (env : Env) (prompt : String)
    (h : env.marshalErr ≠ none ∨ env.newRequestErr ≠ none) :
    (generateContent env prompt).2 = [] := by
  cases hm : env.marshalErr with
  | some e => simp [generateContent, hm]
  | none =>
    cases hn : env.newRequestErr with
    | some e => simp [generateContent, hm, hn, maxRetries, retryLoop]
    | none => simp [hm, hn] at h

/-- The traces `generateContent` can leave, with the loop conditions that lead to them. -/
theorem generateContent_trace_cases (env : Env) (prompt : String) :
    (generateContent env prompt).2 = [] ∨
      ((env.Do prompt 0).retry = false ∧ (generateContent env prompt).2 = [.call 1]) ∨
      ((env.Do prompt 0).retry = true ∧ (env.Do prompt 1).retry = false ∧
        (generateContent env prompt).2 = [.call 1, .sleep 1000000000, .call 2]) ∨
      ((env.Do prompt 0).retry = true ∧ (env.Do prompt 1).retry = true ∧
        (env.Do prompt 2).retry = false ∧
        (generateContent env prompt).2 =
          [.call 1, .sleep 1000000000, .call 2, .sleep 2000000000, .call 3]) ∨
      ((env.Do prompt 0).retry = true ∧ (env.Do prompt 1).retry = true ∧
        (env.Do prompt 2).retry = true ∧
        (generateContent env prompt).2 =
          [.call 1, .sleep 1000000000, .call 2, .sleep 2000000000, .call 3,
            .sleep 4000000000]) := by
  by_cases hc : env.marshalErr = none ∧ env.newRequestErr = none
  · rw [generateContent_unrolled env prompt hc.1 hc.2]
    right
    cases h0 : (env.Do prompt 0).retry <;> cases h1 : (env.Do prompt 1).retry <;>
      cases h2 : (env.Do prompt 2).retry <;> simp [Second]
  · left
    apply generateContent_no_request
    by_contra hcon
    simp only [not_or, not_not] at hcon
    exact hc hcon

/-- C6. For every behaviour of the provider, `generateContent` makes at most 3
outbound calls; call `k+2` is made only if `k+1 < 3`, call `k+1` was made and
ended in a transport failure or an HTTP 503 (the loop condition, which holds
exactly for those outcomes); a call that ended so is immediately followed by a
sleep of `2^k` seconds (1s, 2s, 4s for calls 1, 2, 3), any other call is the
last effect, every sleep directly follows such a call, and the sleeps add up
to at most 7 seconds. -/
theorem generateContent_bounded_backoff (env : Env) (prompt : String) :
    callCount (generateContent env prompt).2 ≤ 3 ∧
      (∀ k, Event.call (k + 2) ∈ (generateContent env prompt).2 →
        k + 1 < 3 ∧ Event.call (k + 1) ∈ (generateContent env prompt).2 ∧
          (env.Do prompt k).retry = true) ∧
      (∀ r : DoResult, r.retry = true ↔
        ((∃ err resp, r = .fail err resp) ∨
          (∃ resp, r = .ok resp ∧ resp.StatusCode = 503))) ∧
      (∀ idx k, (generateContent env prompt).2[idx]? = some (Event.call (k + 1)) →
        (generateContent env prompt).2[idx + 1]? =
          if (env.Do prompt k).retry = true then some (Event.sleep (2 ^ k * Second))
          else none) ∧
      (∀ idx d, (generateContent env prompt).2[idx]? = some (Event.sleep d) →
        ∃ j k, idx = j + 1 ∧
          (generateContent env prompt).2[j]? = some (Event.call (k + 1)) ∧
          (env.Do prompt k).retry = true) ∧
      totalSleep (generateContent env prompt).2 ≤ 7 * Second := by
  have hretry : ∀ r : DoResult, r.retry = true ↔
      ((∃ err resp, r = .fail err resp) ∨
        (∃ resp, r = .ok resp ∧ resp.StatusCode = 503)) := by
    intro r
    cases r with
    | ok resp => simp [DoResult.retry, StatusServiceUnavailable]
    | fail err resp => simp [DoResult.retry]
  rcases generateContent_trace_cases env prompt with h | ⟨h0, h⟩ | ⟨h0, h1, h⟩ |
    ⟨h0, h1, h2, h⟩ | ⟨h0, h1, h2, h⟩
  · rw [h]
    refine ⟨by decide, ?_, hretry, ?_, ?_, by decide⟩
    · intro k hk; simp at hk
    · intro idx k hk; simp at hk
    · intro idx d hd; simp at hd
  · rw [h]
    refine ⟨by decide, ?_, hretry, ?_, ?_, by decide⟩
    · intro k hk; simp at hk
    · intro idx k hk
      rcases idx with _ | idx
      · simp at hk; subst hk; simp [h0]
      · simp at hk
    · intro idx d hd
      rcases idx with _ | idx <;> simp at hd
  · rw [h]
    refine ⟨by decide, ?_, hretry, ?_, ?_, by decide⟩
    · intro k hk
      simp at hk; subst hk; simp [h0]
    · intro idx k hk
      rcases idx with _ | _ | _ | idx
      · simp at hk; subst hk; simp [h0, Second]
      · simp at hk
      · simp at hk; subst hk; simp [h1]
      · simp at hk
    · intro idx d hd
      rcases idx with _ | _ | _ | idx
      · simp at hd
      · exact ⟨0, 0, rfl, by simp, h0⟩
      · simp at hd
      · simp at hd
  · rw [h]
    refine ⟨by decide, ?_, hretry, ?_, ?_, by decide⟩
    · intro k hk
      simp at hk
      rcases hk with hk | hk <;> subst hk <;> simp [h0, h1]
    · intro idx k hk
      rcases idx with _ | _ | _ | _ | _ | idx
      · simp at hk; subst hk; simp [h0, Second]
      · simp at hk
      · simp at hk; subst hk; simp [h1, Second]
      · simp at hk
      · simp at hk; subst hk; simp [h2]
      · simp at hk
    · intro idx d hd
      rcases idx with _ | _ | _ | _ | _ | idx
      · simp at hd
      · exact ⟨0, 0, rfl, by simp, h0⟩
      · simp at hd
      · exact ⟨2, 1, rfl, by simp, h1⟩
      · simp at hd
      · simp at hd
  · rw [h]
    refine ⟨by decide, ?_, hretry, ?_, ?_, by decide⟩
    · intro k hk
      simp at hk
      rcases hk with hk | hk <;> subst hk <;> simp [h0, h1]
    · intro idx k hk
      rcases idx with _ | _ | _ | _ | _ | _ | idx
      · simp at hk; subst hk; simp [h0, Second]
      · simp at hk
      · simp at hk; subst hk; simp [h1, Second]
      · simp at hk
      · simp at hk; subst hk; simp [h2, Second]
      · simp at hk
      · simp at hk
    · intro idx d hd
      rcases idx with _ | _ | _ | _ | _ | _ | idx
      · simp at hd
      · exact ⟨0, 0, rfl, by simp, h0⟩
      · simp at hd
      · exact ⟨2, 1, rfl, by simp, h1⟩
      · simp at hd
      · exact ⟨4, 2, rfl, by simp, h2⟩
      · simp at hd

theorem generateContent_bounded_backoff_witness :
    callCount (generateContent
        (scriptedEnv [unavailable, .fail "connection reset" none, answered]) "p").2 ≤ 3 ∧
      (generateContent
        (scriptedEnv [unavailable, .fail "connection reset" none, answered]) "p").2
        = [.call 1, .sleep (1 * Second), .call 2, .sleep (2 * Second), .call 3] ∧
      totalSleep (generateContent
        (scriptedEnv [unavailable, .fail "connection reset" none, answered]) "p").2
        ≤ 7 * Second :=
  ⟨(generateContent_bounded_backoff
      (scriptedEnv [unavailable, .fail "connection reset" none, answered]) "p").1,
    by decide,
    (generateContent_bounded_backoff
      (scriptedEnv [unavailable, .fail "connection reset" none, answered]) "p").2.2.2.2.2⟩

/-- When calls `1..k` take the retry branch and call `k+1 ≤ 3` does not, the
loop is left by `break` with the response of call `k+1`: `k+1` calls are made
and that call is the last effect. -/
theorem generateContent_break (env : Env) (prompt : String) (k : Nat)
    (hm : env.marshalErr = none) (hn : env.newRequestErr = none) (hk : k < 3)
    (hprev : ∀ j, j < k → (env.Do prompt j).retry = true)
    (hlast : (env.Do prompt k).retry = false) :
    (generateContent env prompt).1 = afterLoop env (env.Do prompt k).resp ∧
      callCount (generateContent env prompt).2 = k + 1 ∧
      (generateContent env prompt).2.getLast? = some (Event.call (k + 1)) := by
  rw [generateContent_unrolled env prompt hm hn]
  rcases k with _ | _ | _ | k
  · simp [hlast, callCount]
  · have h0 := hprev 0 (by decide)
    simp [h0, hlast, callCount]
  · have h0 := hprev 0 (by decide)
    have h1 := hprev 1 (by decide)
    simp [h0, h1, hlast, callCount]
  · omega

/-- When all three calls take the retry branch, the loop runs out: three calls,
three sleeps, and `resp` is what the third call left behind. -/
theorem generateContent_exhausted (env : Env) (prompt : String)
    (hm : env.marshalErr = none) (hn : env.newRequestErr = none)
    (hall : ∀ j, j < 3 → (env.Do prompt j).retry = true) :
    (generateContent env prompt).1 = afterLoop env (env.Do prompt 2).respAfterRetry ∧
      (generateContent env prompt).2 =
        [.call 1, .sleep (1 * Second), .call 2, .sleep (2 * Second), .call 3,
          .sleep (4 * Second)] := by
  rw [generateContent_unrolled env prompt hm hn]
  have h0 := hall 0 (by decide)
  have h1 := hall 1 (by decide)
  have h2 := hall 2 (by decide)
  simp [h0, h1, h2, Second]

/-- C7. If calls `1..k-1` were all retried and call `k ≤ 3` returns a status `s`
other than 200 and 503 with body `b`, then `generateContent` makes no further
call (`k` calls in all, call `k` being the last effect) and fails with the error
whose message is `API error (status s): b`. -/
theorem generateContent_terminal_status (env : Env) (prompt : String) (k s : Nat) (b : String)
    (resp : Response)
    (hm : env.marshalErr = none) (hn : env.newRequestErr = none)
    (hk1 : 1 ≤ k) (hk3 : k ≤ 3)
    (hprev : ∀ j, j < k - 1 → (env.Do prompt j).retry = true)
    (hdo : env.Do prompt (k - 1) = .ok resp)
    (hs : resp.StatusCode = s) (hb : (ReadAll resp).1 = b)
    (h200 : s ≠ 200) (h503 : s ≠ 503) :
    (generateContent env prompt).1 = .error (.apiError s b) ∧
      (GenError.apiError s b).message = "API error (status " ++ toString s ++ "): " ++ b ∧
      callCount (generateContent env prompt).2 = k ∧
      (generateContent env prompt).2.getLast? = some (Event.call k) := by
  have hlast : (env.Do prompt (k - 1)).retry = false := by
    simp [hdo, DoResult.retry, StatusServiceUnavailable, hs, h503]
  obtain ⟨h1, h2, h3⟩ :=
    generateContent_break env prompt (k - 1) hm hn (by omega) hprev hlast
  have hk : k - 1 + 1 = k := by omega
  rw [hk] at h2 h3
  refine ⟨?_, rfl, h2, h3⟩
  rw [h1, hdo]
  simp [DoResult.resp, afterLoop, StatusOK, hs, h200, hb]

theorem generateContent_terminal_status_witness :
    (generateContent (scriptedEnv [unavailable,
        .ok { StatusCode := 404, body := "not found", readErr := none, closed := false }])
        "p").1 = .error (.apiError 404 "not found") ∧
      (GenError.apiError 404 "not found").message
        = "API error (status " ++ toString 404 ++ "): " ++ "not found" ∧
      callCount (generateContent (scriptedEnv [unavailable,
        .ok { StatusCode := 404, body := "not found", readErr := none, closed := false }])
        "p").2 = 2 ∧
      (generateContent (scriptedEnv [unavailable,
        .ok { StatusCode := 404, body := "not found", readErr := none, closed := false }])
        "p").2.getLast? = some (Event.call 2) :=
  generateContent_terminal_status
    (scriptedEnv [unavailable,
      .ok { StatusCode := 404, body := "not found", readErr := none, closed := false }])
    "p" 2 404 "not found"
    { StatusCode := 404, body := "not found", readErr := none, closed := false }
    rfl rfl (by decide) (by decide)
    (by intro j hj; have hj0 : j = 0 := by omega
        subst hj0; decide)
    rfl rfl rfl (by decide) (by decide)

/-- No other error of `generateContent` has the message of the no-response error. -/
theorem noResponse_message_distinct (e : GenError)
    (h : e.message = "API did not respond after 3 retries") : e = .noResponse := by
  cases e with
  | noResponse => rfl
  | creatingRequestBody err =>
    have := congrArg String.data h
    simp [GenError.message, String.data_append] at this
  | creatingHTTPRequest err =>
    have := congrArg String.data h
    simp [GenError.message, String.data_append] at this
  | apiError status respBody =>
    have := congrArg String.data h
    simp [GenError.message, String.data_append] at this
  | readingBody err =>
    have := congrArg String.data h
    simp [GenError.message, String.data_append] at this
  | parsing err =>
    have := congrArg String.data h
    simp [GenError.message, String.data_append] at this
  | noContent =>
    have := congrArg String.data h
    simp [GenError.message] at this

/-- C8. If all three calls end in a transport failure without a response, then
`generateContent` fails, after the three calls, with the error whose message is
`API did not respond after 3 retries`, and every other error the function
constructs has a different message. -/
theorem generateContent_no_response (env : Env) (prompt : String)
    (hm : env.marshalErr = none) (hn : env.newRequestErr = none)
    (hall : ∀ j, j < 3 → ∃ err, env.Do prompt j = .fail err none) :
    (generateContent env prompt).1 = .error .noResponse ∧
      GenError.noResponse.message = "API did not respond after 3 retries" ∧
      callCount (generateContent env prompt).2 = 3 ∧
      (∀ e : GenError, e ≠ .noResponse → e.message ≠ GenError.noResponse.message) := by
  have hretry : ∀ j, j < 3 → (env.Do prompt j).retry = true := by
    intro j hj
    obtain ⟨err, he⟩ := hall j hj
    simp [he, DoResult.retry]
  obtain ⟨h1, h2⟩ := generateContent_exhausted env prompt hm hn hretry
  obtain ⟨err, he⟩ := hall 2 (by decide)
  refine ⟨?_, by decide, ?_, ?_⟩
  · rw [h1, he]
    simp [DoResult.respAfterRetry, afterLoop]
  · rw [h2]
    simp [callCount]
  · intro e hne hmsg
    exact hne (noResponse_message_distinct e (by rw [hmsg]; decide))

theorem generateContent_no_response_witness :
    (generateContent (scriptedEnv []) "p").1 = .error .noResponse ∧
      GenError.noResponse.message = "API did not respond after 3 retries" ∧
      callCount (generateContent (scriptedEnv []) "p").2 = 3 ∧
      (∀ e : GenError, e ≠ .noResponse → e.message ≠ GenError.noResponse.message) :=
  generateContent_no_response (scriptedEnv []) "p" rfl rfl
    (fun _ _ => ⟨"connection refused", rfl⟩)

/-- C9. When the loop is left with a 200 response whose body is read and decoded
into `g`, `generateContent` returns the text of the first part of the first
candidate if `g` has a candidate and the first candidate has a part, whatever
the other candidates and parts are; if `g` has no candidate, or its first
candidate has no part (whatever the later candidates hold), it fails with the
error whose message is `no content found in Gemini response`. -/
theorem generateContent_first_text (env : Env) (prompt : String) (k : Nat) (resp : Response)
    (body : String) (g : GeminiResponse)
    (hm : env.marshalErr = none) (hn : env.newRequestErr = none) (hk : k < 3)
    (hprev : ∀ j, j < k → (env.Do prompt j).retry = true)
    (hdo : env.Do prompt k = .ok resp) (hs : resp.StatusCode = 200)
    (hread : ReadAll resp = (body, none)) (hu : env.Unmarshal body = .ok g) :
    (∀ c cs p ps, g.Candidates = c :: cs → c.Content.Parts = p :: ps →
        (generateContent env prompt).1 = .ok p.Text) ∧
      ((g.Candidates = [] ∨ ∃ c cs, g.Candidates = c :: cs ∧ c.Content.Parts = []) →
        (generateContent env prompt).1 = .error .noContent) ∧
      GenError.noContent.message = "no content found in Gemini response" := by
  have hlast : (env.Do prompt k).retry = false := by
    simp [hdo, DoResult.retry, StatusServiceUnavailable, hs]
  obtain ⟨h1, -, -⟩ := generateContent_break env prompt k hm hn hk hprev hlast
  have hres : (generateContent env prompt).1 = firstText g := by
    rw [h1, hdo]
    simp [DoResult.resp, afterLoop, StatusOK, hs, hread, hu]
  refine ⟨?_, ?_, rfl⟩
  · intro c cs p ps hc hp
    rw [hres]
    simp [firstText, hc, hp]
  · intro h
    rw [hres]
    rcases h with h | ⟨c, cs, hc, hp⟩
    · simp [firstText, h]
    · simp [firstText, hc, hp]

theorem generateContent_first_text_witness :
    (∀ c cs p ps,
        sampleResponse.Candidates = c :: cs →
        c.Content.Parts = p :: ps →
        (generateContent (scriptedEnv [unavailable, answered]) "p").1 = .ok p.Text) ∧
      ((sampleResponse.Candidates = [] ∨
          ∃ c cs,
            sampleResponse.Candidates = c :: cs ∧
            c.Content.Parts = []) →
        (generateContent (scriptedEnv [unavailable, answered]) "p").1 = .error .noContent) ∧
      GenError.noContent.message = "no content found in Gemini response" :=
  generateContent_first_text (scriptedEnv [unavailable, answered]) "p" 1
    { StatusCode := 200, body := sampleBody, readErr := none, closed := false } sampleBody
    sampleResponse
    rfl rfl (by decide)
    (by intro j hj; have hj0 : j = 0 := by omega
        subst hj0; decide)
    rfl rfl rfl rfl

/-- C1, as stated, fails: against a provider that answers calls 1 to 3 with
HTTP 503 and would answer call 4 with HTTP 200 carrying a candidate text,
`generateContent` makes 3 calls, sleeps 1s + 2s + 4s = 7s and then returns the
error for status 503 instead of the candidate text; call 4 is never made. -/
theorem generateContent_three_503_then_200 :
    afterLoop (scriptedEnv [unavailable, unavailable, unavailable, answered])
        ((scriptedEnv [unavailable, unavailable, unavailable, answered]).Do "p" 3).resp
        = .ok "^[0-9]+$|||digits only" ∧
      callCount (generateContent
        (scriptedEnv [unavailable, unavailable, unavailable, answered]) "p").2 = 3 ∧
      totalSleep (generateContent
        (scriptedEnv [unavailable, unavailable, unavailable, answered]) "p").2 = 7 * Second ∧
      (generateContent (scriptedEnv [unavailable, unavailable, unavailable, answered]) "p").1
        = .error (.apiError 503 "") ∧
      (generateContent (scriptedEnv [unavailable, unavailable, unavailable, answered]) "p").1
        ≠ .ok "^[0-9]+$|||digits only" := by
  refine ⟨by decide, by decide, by decide, by decide, by decide⟩

/-- C1, amended. Against a provider that answers calls 1 to 3 with HTTP 503,
whatever it would answer afterwards, `generateContent` makes exactly 3 calls,
sleeps 1s, 2s and 4s after them (7s in all) and then fails with the API error
for status 503, never with a text. -/
theorem generateContent_three_503 (env : Env) (prompt : String)
    (hm : env.marshalErr = none) (hn : env.newRequestErr = none)
    (h503 : ∀ j, j < 3 → ∃ resp, env.Do prompt j = .ok resp ∧ resp.StatusCode = 503) :
    (generateContent env prompt).2 =
        [.call 1, .sleep (1 * Second), .call 2, .sleep (2 * Second), .call 3,
          .sleep (4 * Second)] ∧
      callCount (generateContent env prompt).2 = 3 ∧
      totalSleep (generateContent env prompt).2 = 7 * Second ∧
      (∃ respBody, (generateContent env prompt).1 = .error (.apiError 503 respBody)) ∧
      (∀ text, (generateContent env prompt).1 ≠ .ok text) := by
  have hretry : ∀ j, j < 3 → (env.Do prompt j).retry = true := by
    intro j hj
    obtain ⟨resp, he, hs⟩ := h503 j hj
    simp [he, DoResult.retry, StatusServiceUnavailable, hs]
  obtain ⟨h1, h2⟩ := generateContent_exhausted env prompt hm hn hretry
  obtain ⟨resp, he, hs⟩ := h503 2 (by decide)
  have hres : (generateContent env prompt).1 = .error (.apiError 503 (ReadAll resp.Close).1) := by
    rw [h1, he]
    simp [DoResult.respAfterRetry, afterLoop, Response.Close, StatusOK, hs]
  refine ⟨h2, ?_, ?_, ⟨_, hres⟩, ?_⟩
  · rw [h2]; simp [callCount]
  · rw [h2]; simp [totalSleep, sleeps, Second]
  · intro text
    rw [hres]
    simp

theorem generateContent_three_503_witness :
    (generateContent (scriptedEnv [unavailable, unavailable, unavailable, answered]) "p").2 =
        [.call 1, .sleep (1 * Second), .call 2, .sleep (2 * Second), .call 3,
          .sleep (4 * Second)] ∧
      callCount (generateContent
        (scriptedEnv [unavailable, unavailable, unavailable, answered]) "p").2 = 3 ∧
      totalSleep (generateContent
        (scriptedEnv [unavailable, unavailable, unavailable, answered]) "p").2 = 7 * Second ∧
      (∃ respBody,
        (generateContent (scriptedEnv [unavailable, unavailable, unavailable, answered]) "p").1
          = .error (.apiError 503 respBody)) ∧
      (∀ text,
        (generateContent (scriptedEnv [unavailable, unavailable, unavailable, answered]) "p").1
          ≠ .ok text) :=
  generateContent_three_503 (scriptedEnv [unavailable, unavailable, unavailable, answered]) "p"
    rfl rfl
    (by
      intro j hj
      have hj3 : j = 0 ∨ j = 1 ∨ j = 2 := by omega
      rcases hj3 with h | h | h <;> subst h <;>
        exact ⟨{ StatusCode := 503, body := "overloaded", readErr := none, closed := false },
          rfl, rfl⟩)

/-! ## The regex-response splitter -/

theorem Index_none (sep : List Char) : ∀ s : List Char, Index s sep = none → ¬ sep <:+: s := by
  intro s
  induction s with
  | nil =>
    intro h hinf
    have hnil : sep = [] := List.eq_nil_of_infix_nil hinf
    simp [Index, hnil] at h
  | cons c cs ih =>
    intro h hinf
    by_cases hp : sep.isPrefixOf (c :: cs) = true
    · simp [Index, hp] at h
    · simp only [Index, hp, Bool.false_eq_true, if_false, Option.map_eq_none'] at h
      rcases List.infix_cons_iff.mp hinf with h1 | h1
      · exact hp (List.isPrefixOf_iff_prefix.mpr h1)
      · exact ih h h1

theorem Index_some_split (sep : List Char) :
    ∀ (s : List Char) (m : Nat), Index s sep = some m →
      s = s.take m ++ sep ++ s.drop (m + sep.length) := by
  intro s
  induction s with
  | nil =>
    intro m h
    by_cases hnil : sep = []
    · simp [hnil]
    · simp [Index, hnil] at h
  | cons c cs ih =>
    intro m h
    by_cases hp : sep.isPrefixOf (c :: cs) = true
    · simp only [Index, hp, if_true, Option.some.injEq] at h
      subst h
      have hpre := List.prefix_iff_eq_append.mp (List.isPrefixOf_iff_prefix.mp hp)
      simpa using hpre.symm
    · simp only [Index, hp, Bool.false_eq_true, if_false, Option.map_eq_some'] at h
      obtain ⟨m', hm', rfl⟩ := h
      have := ih m' hm'
      simp only [List.take_succ_cons, List.cons_append, Nat.add_right_comm m' 1,
        List.drop_succ_cons]
      exact congrArg (List.cons c) this

theorem Index_some_min (sep : List Char) :
    ∀ (s : List Char) (m : Nat), Index s sep = some m →
      ∀ pre post : List Char, s = pre ++ sep ++ post → m ≤ pre.length := by
  intro s
  induction s with
  | nil =>
    intro m h pre post hs
    by_cases hnil : sep = []
    · simp [Index, hnil] at h
      omega
    · simp [Index, hnil] at h
  | cons c cs ih =>
    intro m h pre post hs
    by_cases hp : sep.isPrefixOf (c :: cs) = true
    · simp only [Index, hp, if_true, Option.some.injEq] at h
      omega
    · simp only [Index, hp, Bool.false_eq_true, if_false, Option.map_eq_some'] at h
      obtain ⟨m', hm', rfl⟩ := h
      cases pre with
      | nil =>
        exfalso
        apply hp
        rw [List.isPrefixOf_iff_prefix, hs]
        exact ⟨post, by simp⟩
      | cons a pre' =>
        simp only [List.cons_append, List.cons.injEq] at hs
        have := ih m' hm' pre' post hs.2
        simp only [List.length_cons]
        omega

theorem SplitN_separator (r : String) :
    SplitN r "|||" 2 =
      match Index r.data "|||".data with
      | none => [r]
      | some m => [String.mk (r.data.take m), String.mk (r.data.drop (m + 3))] := by
  obtain ⟨cs⟩ := r
  cases cs with
  | nil => rfl
  | cons c cs =>
    have hpos : 0 < c.utf8Size := Char.utf8Size_pos c
    have hn : min 2 (String.utf8ByteSize ⟨c :: cs⟩ + 1) - 1 = 1 := by
      simp only [String.utf8ByteSize_mk, String.utf8Len_cons]
      omega
    have hsep : ("|||" : String) ≠ "" := by decide
    simp only [SplitN, hsep, if_false, hn, splitLoop]
    cases hI : Index (c :: cs) "|||".data with
    | none => simp
    | some m => simp [String.length]

/-- C5. For every response text `r` the service returns to `HandleGenerateRegex`:
if `r = pre ++ "|||" ++ post` with `pre` the shortest such prefix (the part
before the first separator), the handler answers 200 with `regex = TrimSpace pre`
and `explanation = TrimSpace post`, later separators staying in `post`; if `r`
has no separator, it answers 200 with `regex = r` and the placeholder
explanation. -/
theorem HandleGenerateRegex_split (gen : String → Except GenError String)
    (description r : String) (hd : description ≠ "") (hg : gen description = .ok r) :
    (∀ pre post : String, r = pre ++ "|||" ++ post →
        (∀ pre' post' : String, r = pre' ++ "|||" ++ post' → pre.length ≤ pre'.length) →
        HandleGenerateRegex gen (.ok description) =
          writeJSON 200 [("regex", TrimSpace pre), ("explanation", TrimSpace post)]) ∧
      ((¬ ∃ pre post : String, r = pre ++ "|||" ++ post) →
        HandleGenerateRegex gen (.ok description) =
          writeJSON 200
            [("regex", r), ("explanation", "AI did not provide an explanation.")]) ∧
      HandleGenerateRegex (fun _ => .ok "^[0-9]+$|||digits only") (.ok description) =
        writeJSON 200 [("regex", "^[0-9]+$"), ("explanation", "digits only")] ∧
      HandleGenerateRegex (fun _ => .ok "abc") (.ok description) =
        writeJSON 200
          [("regex", "abc"), ("explanation", "AI did not provide an explanation.")] := by
  have hsample1 : SplitN "^[0-9]+$|||digits only" "|||" 2 = ["^[0-9]+$", "digits only"] := by
    decide
  have hsample2 : SplitN "abc" "|||" 2 = ["abc"] := by decide
  have htrim1 : TrimSpace "^[0-9]+$" = "^[0-9]+$" := by decide
  have htrim2 : TrimSpace "digits only" = "digits only" := by decide
  have hsome : ∀ m, Index r.data "|||".data = some m →
      r = String.mk (r.data.take m) ++ "|||" ++ String.mk (r.data.drop (m + 3)) := by
    intro m hm
    apply String.ext
    have := Index_some_split "|||".data r.data m hm
    simpa [String.data_append] using this
  refine ⟨?_, ?_, ?_, ?_⟩
  · intro pre post hr hfirst
    have hdata : r.data = pre.data ++ "|||".data ++ post.data := by
      rw [hr]; simp [String.data_append]
    cases hI : Index r.data "|||".data with
    | none =>
      exfalso
      exact Index_none _ _ hI ⟨pre.data, post.data, hdata.symm⟩
    | some m =>
      have hle : m ≤ pre.data.length := Index_some_min _ _ m hI pre.data post.data hdata
      have hge := hfirst _ _ (hsome m hI)
      have hlen : pre.data.length ≤ r.data.length := by
        rw [hdata]; simp
      have hm : m = pre.data.length := by
        simp only [String.length, List.length_take] at hge
        omega
      have htake : r.data.take m = pre.data := by
        rw [hm, hdata, List.append_assoc, List.take_left]
      have hdrop : r.data.drop (m + 3) = post.data := by
        have h3 : m + 3 = (pre.data ++ "|||".data).length := by
          rw [hm]; simp
        rw [h3, hdata, List.drop_left]
      simp only [HandleGenerateRegex, hd, if_false, hg, SplitN_separator, hI, htake, hdrop]
  · intro hno
    cases hI : Index r.data "|||".data with
    | none =>
      simp only [HandleGenerateRegex, hd, if_false, hg, SplitN_separator, hI]
    | some m => exact absurd ⟨_, _, hsome m hI⟩ hno
  · simp only [HandleGenerateRegex, hd, if_false, hsample1, htrim1, htrim2]
  · simp only [HandleGenerateRegex, hd, if_false, hsample2]

theorem HandleGenerateRegex_split_witness :
    HandleGenerateRegex (fun _ => .ok "^[0-9]+$|||digits only") (.ok "digits") =
        writeJSON 200 [("regex", TrimSpace "^[0-9]+$"), ("explanation", TrimSpace "digits only")] ∧
      HandleGenerateRegex (fun _ => .ok "abc") (.ok "letters") =
        writeJSON 200
          [("regex", "abc"), ("explanation", "AI did not provide an explanation.")] :=
  ⟨(HandleGenerateRegex_split (fun _ => .ok "^[0-9]+$|||digits only") "digits"
      "^[0-9]+$|||digits only" (by decide) rfl).1 "^[0-9]+$" "digits only" (by decide)
      (fun pre' post' h => by
        have hI : Index "^[0-9]+$|||digits only".data "|||".data = some 8 := by decide
        have hdata : "^[0-9]+$|||digits only".data = pre'.data ++ "|||".data ++ post'.data := by
          rw [h]; simp [String.data_append]
        exact Index_some_min _ _ 8 hI pre'.data post'.data hdata),
    (HandleGenerateRegex_split (fun _ => .ok "abc") "letters" "abc" (by decide) rfl).2.1
      (fun ⟨pre, post, h⟩ => by
        have hI : Index "abc".data "|||".data = none := by decide
        have hdata : "abc".data = pre.data ++ "|||".data ++ post.data := by
          rw [h]; simp [String.data_append]
        exact Index_none _ _ hI ⟨pre.data, post.data, hdata.symm⟩)⟩

end Devkit
